import Mathlib

/-
Verification of asylo/util/statusor.h: the StatusOr result container.

The container either holds a value of type T or a Status explaining why no
value is present. The C++ implementation realises this with a manually
managed union plus a boolean discriminant has_value_; the shallow embedding
below uses a Lean sum-type with two constructors, which is exactly the
discriminant plus the mutually exclusive payload. Operations that can hit a
LOG(FATAL) abort are embedded as Option-returning functions: none models
the fatal abort, some models normal completion.

The Status collaborator itself (asylo/util/status.h and
asylo/util/status_error_space.h) is not part of the sources under
verification; it is modelled from the specification of the consumed
interface: an error space, a numeric error code, a textual message, a
success predicate, and a canonical success factory.
-/

namespace asylo

/-- Modelled from the spec: the external Status collaborator, a failure
description holding an error space, a numeric error code and a
human-readable message. Only its consumed interface is specified: the
success predicate, the canonical success factory, and construction from a
code plus a message. -/
structure Status where
  errorSpace : String
  code : Int
  message : String
deriving DecidableEq, Repr

namespace Status

/-- Modelled from the spec: the predicate reporting whether the status
represents success. A status is successful exactly when its error code is
the zero OK code. -/
def ok (s : Status) : Bool := s.code == 0

/-- Modelled from the spec: the name of the canonical (Google) error space
used by the default-constructed failure and by the success factory. -/
def googleErrorSpaceName : String := "::asylo::error::GoogleErrorSpace"

/-- Modelled from the spec: the name of the asylo StatusError error space
that carries the moved-from sentinel code. -/
def statusErrorSpaceName : String := "::asylo::error::StatusErrorSpace"

/-- Modelled from the spec: the UNKNOWN code of the canonical error space,
used by the default constructor of StatusOr. Its only relevant property is
that it is a fixed non-zero (non-success) code. -/
def GoogleError_UNKNOWN : Int := 2

/-- Modelled from the spec: the INVALID code of the StatusError space, used
for the moved-from sentinel. The spec fixes its identity, not its numeric
value; its only relevant property is that it is a fixed non-zero
(non-success) code. -/
def StatusError_INVALID : Int := 1

/-- Modelled from the spec: the canonical success factory
Status::OkStatus(). -/
def OkStatus : Status := ⟨ googleErrorSpaceName, 0, ""⟩

end Status

/-- The StatusOr container of statusor.h. The C++ object is a union
variant together with the discriminant has_value_; the two constructors
below are the two legal (discriminant, active member) combinations:
hasValue v is has_value_ = true with value_ active, hasFailure s is
has_value_ = false with status_ active. -/
inductive StatusOr (T : Type) where
  | hasValue (value : T)
  | hasFailure (status : Status)
deriving DecidableEq, Repr

namespace StatusOr

variable {T : Type}

/-- Status stored by the default constructor:
Status(error::GoogleError::UNKNOWN, "Unknown error"). -/
def unknownStatus : Status :=
  ⟨ Status.googleErrorSpaceName, Status.GoogleError_UNKNOWN, "Unknown error"⟩

/-- Status installed by Clear():
Status(error::StatusError::INVALID, "The object was moved"). -/
def movedStatus : Status :=
  ⟨ Status.statusErrorSpaceName, Status.StatusError_INVALID, "The object was moved"⟩

/-- explicit StatusOr(): constructs a StatusOr holding a non-OK status with
the unknown-error code and message; has_value_ is false. -/
def mkDefault : StatusOr T := .hasFailure unknownStatus

/-- StatusOr(const Status &status): stores the given status with
has_value_ false, then aborts via LOG(FATAL) if status.ok(). The abort is
modelled by none, so a some result exists exactly when the status is
non-OK. -/
def fromStatus (s : Status) : Option (StatusOr T) :=
  if s.ok then none else some (.hasFailure s)

/-- StatusOr(const T &value): stores a copy of the value, has_value_
true. -/
def fromValue (v : T) : StatusOr T := .hasValue v

/-- StatusOr(T &&value): stores the moved-in value, has_value_ true. In
the value-semantics embedding moving the payload in is the same as storing
it. -/
def fromValueMove (v : T) : StatusOr T := .hasValue v

/-- ok(): returns has_value_, i.e. whether value_ is the active member. -/
def ok : StatusOr T → Bool
  | .hasValue _ => true
  | .hasFailure _ => false

/-- status(): returns Status::OkStatus() when a value is stored, otherwise
the stored status object. -/
def status : StatusOr T → Status
  | .hasValue _ => Status.OkStatus
  | .hasFailure s => s

/-- AssignStatus(status): destroys the active value when there is one and
placement-constructs the status, or assigns over the existing status in
place; either way it sets has_value_ to false, so the resulting state is
hasFailure with the given status. Both source branches are kept. -/
def AssignStatus (a : StatusOr T) (s : Status) : StatusOr T :=
  match a with
  | .hasValue _ => .hasFailure s
  | .hasFailure _ => .hasFailure s

/-- AssignValue(value): destroys whichever member is active and
placement-constructs the new value, setting has_value_ to true. -/
def AssignValue (a : StatusOr T) (v : T) : StatusOr T :=
  match a with
  | .hasValue _ => .hasValue v
  | .hasFailure _ => .hasValue v

/-- Clear(): resets the object to hold the moved-from sentinel status via
AssignStatus. -/
def Clear (a : StatusOr T) : StatusOr T := AssignStatus a movedStatus

/-- StatusOr(const StatusOr &other), the copy constructor: copies the
active member of other according to other.has_value_; other is taken by
const reference and is not mutated. -/
def copyCtor (other : StatusOr T) : StatusOr T :=
  match other with
  | .hasValue v => .hasValue v
  | .hasFailure s => .hasFailure s

/-- operator=(const StatusOr &other), copy assignment. The pointer
identity test `this == &other` of the source cannot be expressed on pure
values, so it is passed as the boolean sameObject; a caller modelling
self-assignment passes sameObject true together with other = a. When the
objects are the same the operator returns immediately; otherwise it
installs a copy of the active member of other via AssignValue or
AssignStatus. The result is the new state of `this`; other is read through
a const reference and is unchanged. -/
def copyAssign (sameObject : Bool) (a other : StatusOr T) : StatusOr T :=
  if sameObject then a
  else
    match other with
    | .hasValue v => AssignValue a v
    | .hasFailure s => AssignStatus a s

/-- StatusOr(StatusOr &&other), the move constructor: moves the active
member of other into the new object, then calls other.Clear(). The result
pair is (the new object, the final state of other). -/
def moveCtor (other : StatusOr T) : StatusOr T × StatusOr T :=
  (match other with
    | .hasValue v => .hasValue v
    | .hasFailure s => .hasFailure s,
   Clear other)

/-- operator=(StatusOr &&other), move assignment. As in copyAssign the
pointer identity test is the boolean sameObject; when the objects are the
same the operator returns immediately with neither object changed (no
Clear). Otherwise it installs the moved active member of other via
AssignValue or AssignStatus and then calls other.Clear(). The result pair
is (the new state of `this`, the final state of other). -/
def moveAssign (sameObject : Bool) (a other : StatusOr T) :
    StatusOr T × StatusOr T :=
  if sameObject then (a, other)
  else
    (match other with
      | .hasValue v => AssignValue a v
      | .hasFailure s => AssignStatus a s,
     Clear other)

/-- ValueOrDie() const &: aborts via LOG(FATAL) when ok() is false
(modelled by none), otherwise returns a reference to the stored value. -/
def ValueOrDie (a : StatusOr T) : Option T :=
  match a with
  | .hasValue v => some v
  | .hasFailure _ => none

/-- ValueOrDie() &, the mutable-reference overload: same contract as the
const overload; aborts when ok() is false, otherwise exposes the stored
value. -/
def ValueOrDieMut (a : StatusOr T) : Option T :=
  match a with
  | .hasValue v => some v
  | .hasFailure _ => none

/-- ValueOrDie() &&, the ownership-transferring overload: aborts when ok()
is false; otherwise moves the stored value out, calls Clear() on the
container, and returns the value. The some result pairs the extracted
value with the final (poisoned) state of the container. -/
def ValueOrDieMove (a : StatusOr T) : Option (T × StatusOr T) :=
  match a with
  | .hasValue v => some (v, Clear a)
  | .hasFailure _ => none

/-- Predicate of the storage invariant of the container: when the failure
alternative is active, the stored Status must not report success. This is
the invariant the spec states for all reachable containers. -/
def wellFormed : StatusOr T → Bool
  | .hasValue _ => true
  | .hasFailure s => !s.ok

/-- Containers reachable through the public, non-aborting operations of
StatusOr: the three constructors, copy construction, copy and move
assignment (with either outcome of the pointer identity test), move
construction (both the destination and the poisoned source), and
ownership-transferring value extraction (the poisoned remainder). -/
inductive Reachable : StatusOr T → Prop where
  | mk_default : Reachable mkDefault
  | mk_status (s : Status) (x : StatusOr T) :
      fromStatus s = some x → Reachable x
  | mk_value (v : T) : Reachable (fromValue v)
  | mk_value_move (v : T) : Reachable (fromValueMove v)
  | copy_ctor (other : StatusOr T) :
      Reachable other → Reachable (copyCtor other)
  | copy_assign (sameObject : Bool) (a other : StatusOr T) :
      Reachable a → Reachable other → Reachable (copyAssign sameObject a other)
  | move_ctor_dst (other : StatusOr T) :
      Reachable other → Reachable (moveCtor other).1
  | move_ctor_src (other : StatusOr T) :
      Reachable other → Reachable (moveCtor other).2
  | move_assign_dst (sameObject : Bool) (a other : StatusOr T) :
      Reachable a → Reachable other →
      Reachable (moveAssign sameObject a other).1
  | move_assign_src (sameObject : Bool) (a other : StatusOr T) :
      Reachable a → Reachable other →
      Reachable (moveAssign sameObject a other).2
  | extract (x rest : StatusOr T) (v : T) :
      Reachable x → ValueOrDieMove x = some (v, rest) → Reachable rest

theorem movedStatus_not_ok : movedStatus.ok = false := by decide

theorem unknownStatus_not_ok : unknownStatus.ok = false := by decide

theorem reachable_wellFormed {T : Type} {x : StatusOr T} (hx : Reachable x) :
    wellFormed x = true := by
  induction hx with
  | mk_default => simp [mkDefault, wellFormed, unknownStatus_not_ok]
  | mk_status s x h =>
      rw [fromStatus] at h
      by_cases hs : s.ok = true
      · simp [hs] at h
      · simp [hs] at h
        subst h
        simp [wellFormed]
        simpa using hs
  | mk_value v => rfl
  | mk_value_move v => rfl
  | copy_ctor other hother ih =>
      cases other <;> simp_all [copyCtor, wellFormed]
  | copy_assign so a other ha hother iha ihother =>
      cases so <;> cases a <;> cases other <;>
        simp_all [copyAssign, AssignValue, AssignStatus, wellFormed]
  | move_ctor_dst other hother ih =>
      cases other <;> simp_all [moveCtor, wellFormed]
  | move_ctor_src other hother ih =>
      cases other <;>
        simp [moveCtor, Clear, AssignStatus, wellFormed, movedStatus_not_ok]
  | move_assign_dst so a other ha hother iha ihother =>
      cases so <;> cases a <;> cases other <;>
        simp_all [moveAssign, AssignValue, AssignStatus, wellFormed]
  | move_assign_src so a other ha hother iha ihother =>
      cases so <;> cases a <;> cases other <;>
        simp_all [moveAssign, Clear, AssignStatus, wellFormed, movedStatus_not_ok]
  | extract x rest v hx h ih =>
      cases x with
      | hasValue v0 =>
          simp [ValueOrDieMove, Clear, AssignStatus] at h
          simp [← h.2, wellFormed, movedStatus_not_ok]
      | hasFailure s => simp [ValueOrDieMove] at h

/-- C1: for every container a (in either alternative) and every distinct
destination b, after move construction of b from a, move assignment
b = move(a), or ownership-transferring value extraction from a, a.ok() is
false and a.status() reports the moved-from sentinel (error code
StatusError::INVALID, "The object was moved"), while b (or the extracted
value) holds exactly the alternative and payload a held beforehand. -/
theorem claim_C1_move_poisoning {T : Type} (a b : StatusOr T) :
    ((moveCtor a).2.ok = false ∧ (moveCtor a).2.status = movedStatus ∧
      (moveCtor a).1 = a) ∧
    ((moveAssign false b a).2.ok = false ∧
      (moveAssign false b a).2.status = movedStatus ∧
      (moveAssign false b a).1 = a) ∧
    (∀ (v : T) (rest : StatusOr T), ValueOrDieMove a = some (v, rest) →
      rest.ok = false ∧ rest.status = movedStatus ∧ a = fromValue v) ∧
    (movedStatus.errorSpace = Status.statusErrorSpaceName ∧
      movedStatus.code = Status.StatusError_INVALID ∧
      movedStatus.message = "The object was moved") := by
  cases a <;> cases b <;>
    simp [moveCtor, moveAssign, Clear, AssignStatus, AssignValue, ok, status,
      ValueOrDieMove, fromValue, movedStatus]

theorem claim_C1_witness :
    (StatusOr.hasFailure movedStatus : StatusOr Int).ok = false ∧
    (StatusOr.hasFailure movedStatus : StatusOr Int).status = movedStatus ∧
    fromValue (7 : Int) = fromValue 7 :=
  (claim_C1_move_poisoning (fromValue 7) mkDefault).2.2.1 7
    (StatusOr.hasFailure movedStatus) rfl

/-- C2: for every value v of type T, a container constructed from v (by
copy or by ownership transfer) satisfies ok() == true, status() is the
canonical OK status, and ValueOrDie returns a value equal to v. -/
theorem claim_C2_value_round_trip {T : Type} (v : T) :
    (fromValue v).ok = true ∧ (fromValue v).status = Status.OkStatus ∧
    ValueOrDie (fromValue v) = some v ∧ ValueOrDieMut (fromValue v) = some v ∧
    (fromValueMove v).ok = true ∧ (fromValueMove v).status = Status.OkStatus ∧
    ValueOrDie (fromValueMove v) = some v :=
  ⟨ rfl, rfl, rfl, rfl, rfl, rfl, rfl⟩

/-- C3: for every non-success status s, a container constructed from s
satisfies ok() == false and status() returns a status equal to s, with its
error code and message preserved exactly. -/
theorem claim_C3_failure_round_trip {T : Type} (s : Status) (h : s.ok = false) :
    fromStatus (T := T) s = some (StatusOr.hasFailure s) ∧
    ∀ x : StatusOr T, fromStatus (T := T) s = some x →
      x.ok = false ∧ x.status = s := by
  constructor
  · simp [fromStatus, h]
  · intro x hx
    simp [fromStatus, h] at hx
    simp [← hx, ok, status]

theorem claim_C3_witness :
    fromStatus (T := Int) ⟨ "space", 5, "not found"⟩ =
      some (StatusOr.hasFailure ⟨ "space", 5, "not found"⟩) ∧
    ∀ x : StatusOr Int, fromStatus (T := Int) ⟨ "space", 5, "not found"⟩ = some x →
      x.ok = false ∧ x.status = ⟨ "space", 5, "not found"⟩ :=
  claim_C3_failure_round_trip ⟨ "space", 5, "not found"⟩ (by decide)

/-- C4: for every container that is not ok, every ValueOrDie overload
(const reference, mutable reference, and ownership-transferring) aborts
fatally (modelled as none) instead of returning; conversely, value access
on an ok container does not abort. -/
theorem claim_C4_value_access_rejection {T : Type} (x : StatusOr T) :
    (x.ok = false →
      ValueOrDie x = none ∧ ValueOrDieMut x = none ∧ ValueOrDieMove x = none) ∧
    (x.ok = true →
      (ValueOrDie x).isSome = true ∧ (ValueOrDieMut x).isSome = true ∧
      (ValueOrDieMove x).isSome = true) := by
  cases x <;> simp [ok, ValueOrDie, ValueOrDieMut, ValueOrDieMove]

theorem claim_C4_witness :
    ValueOrDie (mkDefault : StatusOr Int) = none ∧
    (ValueOrDie (fromValue (0 : Int))).isSome = true :=
  ⟨ ((claim_C4_value_access_rejection mkDefault).1 rfl).1,
    ((claim_C4_value_access_rejection (fromValue 0)).2 rfl).1⟩

/-- C5: for every status s that reports success, constructing a container
from s aborts fatally (modelled as none); for every non-success s, the
same constructor does not abort. -/
theorem claim_C5_success_status_rejection {T : Type} (s : Status) :
    (s.ok = true → fromStatus (T := T) s = none) ∧
    (s.ok = false → (fromStatus (T := T) s).isSome = true) := by
  constructor <;> intro h <;> simp [fromStatus, h]

theorem claim_C5_witness :
    fromStatus (T := Int) Status.OkStatus = none ∧
    (fromStatus (T := Int) ⟨ "space", 5, "bad"⟩).isSome = true :=
  ⟨ (claim_C5_success_status_rejection Status.OkStatus).1 (by decide),
    (claim_C5_success_status_rejection ⟨ "space", 5, "bad"⟩).2 (by decide)⟩

/-- C6: in every container state reachable through the public operations,
if the container is in the failure alternative then the stored Status does
not report success. -/
theorem claim_C6_failure_invariant {T : Type} (x : StatusOr T)
    (hx : Reachable x) :
    ∀ s : Status, x = StatusOr.hasFailure s → s.ok = false := by
  intro s hs
  have hw := reachable_wellFormed hx
  rw [hs] at hw
  simpa [wellFormed] using hw

theorem claim_C6_witness : unknownStatus.ok = false :=
  claim_C6_failure_invariant (T := Int) mkDefault Reachable.mk_default
    unknownStatus rfl

/-- C7: copy construction and copy assignment replicate the alternative
and payload of the source into the destination; the source is read through
a const reference and keeps its contents, and moving the copy afterwards
poisons only the copy, the original a being unchanged. -/
theorem claim_C7_copy_independence {T : Type} (a b : StatusOr T) :
    copyCtor a = a ∧
    copyAssign false b a = a ∧
    (moveCtor (copyCtor a)).1 = a ∧
    (moveCtor (copyCtor a)).2 = StatusOr.hasFailure movedStatus := by
  cases a <;> cases b <;>
    simp [copyCtor, copyAssign, AssignValue, AssignStatus, moveCtor, Clear]

/-- C8: copy-assigning a container to itself and move-assigning it to
itself are no-ops: the alternative and payload are unchanged, and
self-move-assignment does not poison the container. -/
theorem claim_C8_self_assignment_noop {T : Type} (a : StatusOr T) :
    copyAssign true a a = a ∧ moveAssign true a a = (a, a) ∧
    (moveAssign true a a).1.status = a.status :=
  ⟨ rfl, rfl, rfl⟩

/-- C9: a default-constructed container is not ok, and its status carries
the UNKNOWN error code of the canonical error space with the message
"Unknown error". -/
theorem claim_C9_default_state {T : Type} :
    (mkDefault : StatusOr T).ok = false ∧
    (mkDefault : StatusOr T).status = unknownStatus ∧
    unknownStatus.ok = false ∧
    unknownStatus.errorSpace = Status.googleErrorSpaceName ∧
    unknownStatus.code = Status.GoogleError_UNKNOWN ∧
    unknownStatus.message = "Unknown error" :=
  ⟨ rfl, rfl, unknownStatus_not_ok, rfl, rfl, rfl⟩

/-- C10: for every container that is not ok, including one already
poisoned by a previous move, move construction or move assignment from it
does not abort (the operations are total in the model): the destination
receives the stored failure status, the source's failure description is
replaced by the StatusError::INVALID moved-from sentinel, and repeated
moves from the same container leave it holding the sentinel. -/
theorem claim_C10_move_from_failed {T : Type} (b : StatusOr T) (s : Status) :
    (moveCtor (StatusOr.hasFailure s : StatusOr T)).1 = StatusOr.hasFailure s ∧
    (moveCtor (StatusOr.hasFailure s : StatusOr T)).2 =
      StatusOr.hasFailure movedStatus ∧
    (moveAssign false b (StatusOr.hasFailure s)).1 = StatusOr.hasFailure s ∧
    (moveAssign false b (StatusOr.hasFailure s)).2 =
      StatusOr.hasFailure movedStatus ∧
    (moveCtor ((moveCtor (StatusOr.hasFailure s : StatusOr T)).2)).2 =
      StatusOr.hasFailure movedStatus := by
  cases b <;> simp [moveCtor, moveAssign, Clear, AssignStatus, AssignValue]

end StatusOr

end asylo
